import Mathlib

/-!
Verification of the Device-Drivers repository (MicroPython scripts).

The repository contains three MicroPython scripts:
  - `bare_metal_driver.py`: toggles a GPIO pin by poking memory-mapped
    32-bit hardware registers through `stm.mem32`;
  - `input_driver.py`: mirrors a button onto an LED through `pyb.Pin`;
  - `output_driver.py`: is meant to blink an LED through `pyb.Pin`.

The specification describes a Register Access Layer (`read`, `write`,
`modify`) over simulated 32-bit register memory; that layer is specified
but not implemented as such in the sources (the sources poke `stm.mem32`
directly), so it is modelled here from the spec's words.  The scripts
themselves are shallowly embedded: register memory is a function from
addresses to values, statements become state transformers, and Python
name resolution is modelled explicitly where the scripts reference
undefined names.
-/

namespace DeviceDrivers

/-- Simulated register memory: a total map from addresses to stored values.
All values actually stored by `write` are below `2 ^ 32`. -/
abbrev Mem := Nat → Nat

/-- Size of the value space of one 32-bit register: `2 ^ 32`. -/
def WORD : Nat := 2 ^ 32

/-- All-ones 32-bit mask, `0xFFFFFFFF`. -/
def MASK : Nat := WORD - 1

/-! Address and mask constants, transcribed from `bare_metal_driver.py`. -/

def PERIPH_BASE : Nat := 0x40000000

def APB1PERIPH_BASE : Nat := PERIPH_BASE + 0x00000000

def GPIOA_BASE : Nat := APB1PERIPH_BASE + 0x00000000

def RCC_BASE : Nat := PERIPH_BASE + 0x00003800

def RCC_APB1ENR : Nat := RCC_BASE + 0x30

def GPIO_A_MODE_R : Nat := GPIOA_BASE + 0x00

def GPIO_A_OD_R : Nat := GPIOA_BASE + 0x14

def GPIOAEN : Nat := 1 <<< 0

def PINS : Nat := 1 <<< 5

def LED_PIN : Nat := PINS

/-- Modelled from the spec: `read(register) -> value` of the Register
Access Layer ("returns the current 32-bit hardware state", no side
effect); the layer itself is specified but not implemented in the
sources. -/
def read (m : Mem) (r : Nat) : Nat := m r

/-- Modelled from the spec: `write(register, value)` of the Register
Access Layer ("replaces the register's full 32-bit content").  The
documented policy for values wider than 32 bits is truncation: only the
low 32 bits (`v % 2 ^ 32`) are stored. -/
def write (m : Mem) (r v : Nat) : Mem :=
  fun a => if a = r then v % WORD else m a

/-- Modelled from the spec: `modify(register, set_mask, clear_mask)` of
the Register Access Layer, which "computes
`(read(register) & ~clear_mask) | set_mask` and writes it back".  Over a
32-bit register, `x & ~c` is `x &&& (MASK ^^^ c)`. -/
def modify (m : Mem) (r s c : Nat) : Mem :=
  write m r ((read m r &&& (MASK ^^^ c)) ||| s)

/-- Register memory holding `0x00000000` everywhere. -/
def zeroMem : Mem := fun _ => 0

/-- Apply a state transformer `n` times. -/
def iterApply (f : Mem → Mem) : Nat → Mem → Mem
  | 0, m => m
  | n + 1, m => f (iterApply f n m)

/-- One pass of `stm.mem32[r] ^= x` (Python compound assignment:
read, XOR, write back), as in line 27 of `bare_metal_driver.py`. -/
def xorToggleStep (r x : Nat) (m : Mem) : Mem :=
  write m r (read m r ^^^ x)

/-- The three register statements `main` in `bare_metal_driver.py` runs
before its loop: `stm.mem32[RCC_APB1ENR] = GPIOAEN`,
`stm.mem32[GPIO_A_MODE_R] = (1<<10)`, and
`stm.mem32[GPIO_A_MODE_R] &= ~(1<<10)` (read-modify-write clearing
bit 10). -/
def initSeq (m : Mem) : Mem :=
  let m1 := write m RCC_APB1ENR GPIOAEN
  let m2 := write m1 GPIO_A_MODE_R (1 <<< 10)
  write m2 GPIO_A_MODE_R (read m2 GPIO_A_MODE_R &&& (MASK ^^^ (1 <<< 10)))

/-- Global (and, for `green_led`, local) Python names the scripts refer
to.  Each constructor is one identifier occurring in the sources; the
misspelled `pseuo_delay` and the undefined `green_led_name` /
`green_led_value` are included so that their failed lookups can be
modelled. -/
inductive PyName where
  | pyb
  | stm
  | psudo_delay
  | pseuo_delay
  | main
  | printFn
  | green_led
  | green_led_name
  | green_led_value
  | button
  deriving DecidableEq

/-- Names bound in `bare_metal_driver.py`'s module namespace (plus
builtins) by the time `main` runs its loop: the two imports, the helper
`psudo_delay`, and `main` itself.  The call target `pseuo_delay` in the
loop body is NOT among them: it is a misspelling of `psudo_delay`, so
looking it up raises `NameError`. -/
def bareMetalNames : List PyName :=
  [PyName.pyb, PyName.stm, PyName.psudo_delay, PyName.main, PyName.printFn]

/-- One iteration of the `while True:` loop in `bare_metal_driver.main`:
first `stm.mem32[GPIO_A_OD_R] ^= LED_PIN` (which completes), then the
statement `pseuo_delay(90000)`, whose name lookup fails when
`pseuo_delay` is not a defined name.  Returns the memory after the
iteration's completed register operations, paired with `some n` when the
iteration raised a `NameError` on name `n`. -/
def bareMetalLoopIter (m : Mem) : Mem × Option PyName :=
  let m1 := xorToggleStep GPIO_A_OD_R LED_PIN m
  (m1, if PyName.pseuo_delay ∈ bareMetalNames then none else some PyName.pseuo_delay)

/-- Run `bare_metal_driver.main`'s loop for at most `fuel` iterations,
stopping early if an iteration raises. -/
def bareMetalRunLoop : Nat → Mem → Mem × Option PyName
  | 0, m => (m, none)
  | fuel + 1, m =>
    match bareMetalLoopIter m with
    | (m1, none) => bareMetalRunLoop fuel m1
    | (m1, some e) => (m1, some e)

/-- One iteration of the loop body of `input_driver.main`: given the
button reading `button.value()`, the value written to the LED —
`green_led.value(1)` when the reading equals 0, else
`green_led.value(0)`. -/
def inputLoopBody (buttonValue : Nat) : Nat :=
  if buttonValue = 0 then 1 else 0

/-- Trace of the LED writes `input_driver.main` performs over a finite
prefix of button readings (the hardware supplies one reading per
iteration). -/
def inputDriverTrace (readings : List Nat) : List Nat :=
  readings.map inputLoopBody

/-- Effects a statement of the embedded `output_driver` script performs:
resolve a name (raising `NameError` when it is undefined), write the
LED, or delay. -/
inductive Eff where
  | lookupName (n : PyName)
  | ledWrite (v : Nat)
  | delay (ms : Nat)

/-- Run a list of effects under an environment of defined names,
accumulating LED writes; stops with `some n` at the first lookup of an
undefined name `n` (Python's `NameError`). -/
def runEffs (env : List PyName) : List Eff → List Nat → List Nat × Option PyName
  | [], ws => (ws, none)
  | Eff.lookupName n :: rest, ws =>
    if n ∈ env then runEffs env rest ws else (ws, some n)
  | Eff.ledWrite v :: rest, ws => runEffs env rest (ws ++ [v])
  | Eff.delay _ :: rest, ws => runEffs env rest ws

/-- Names visible in `output_driver.main`'s body: the global `pyb`,
`main`, the builtin `print`, and the local `green_led` (assigned by the
first statement, before any lookup of it).  Neither `green_led_name` nor
`green_led_value` is ever defined in the script. -/
def outputDriverNames : List PyName :=
  [PyName.pyb, PyName.main, PyName.printFn, PyName.green_led]

/-- The statements of `output_driver.main` before its `while True:`
loop, in evaluation order (Python evaluates the callable before its
arguments): the `pyb.Pin` construction, then the four prints, of which
the third evaluates the undefined `green_led_name()`. -/
def outputPrologue : List Eff :=
  [Eff.lookupName PyName.pyb, Eff.lookupName PyName.pyb,
   Eff.lookupName PyName.printFn, Eff.lookupName PyName.green_led,
   Eff.lookupName PyName.printFn, Eff.lookupName PyName.green_led,
   Eff.lookupName PyName.printFn, Eff.lookupName PyName.green_led_name,
   Eff.lookupName PyName.printFn, Eff.lookupName PyName.green_led_value]

/-- The body of `output_driver.main`'s loop: `green_led_value(1)`,
`pyb.delay(1000)`, `green_led_value(0)`, `pyb.delay(1000)`.  Note the
script never calls `green_led.value(...)`: the loop's call targets are
the undefined name `green_led_value`, so the body contains no
`Eff.ledWrite` at all. -/
def outputLoopBody : List Eff :=
  [Eff.lookupName PyName.green_led_value, Eff.lookupName PyName.pyb,
   Eff.delay 1000,
   Eff.lookupName PyName.green_led_value, Eff.lookupName PyName.pyb,
   Eff.delay 1000]

/-- Run `output_driver.main`'s loop for at most `fuel` iterations,
stopping early if an iteration raises. -/
def outputDriverLoop : Nat → List Nat → List Nat × Option PyName
  | 0, ws => (ws, none)
  | fuel + 1, ws =>
    match runEffs outputDriverNames outputLoopBody ws with
    | (ws1, none) => outputDriverLoop fuel ws1
    | (ws1, some e) => (ws1, some e)

/-- `output_driver.main`, with `fuel` bounding the number of loop
iterations: run the prologue; only if it completes without raising is
the blink loop entered.  Returns the list of LED writes performed and
the name whose lookup raised `NameError`, if any. -/
def outputDriverMain (fuel : Nat) : List Nat × Option PyName :=
  match runEffs outputDriverNames outputPrologue [] with
  | (ws, none) => outputDriverLoop fuel ws
  | (ws, some e) => (ws, some e)

/-- Sample register memory holding `0xF0F0F0F0` everywhere, used to
instantiate universally quantified statements. -/
def sampleMem : Mem := fun _ => 0xF0F0F0F0

/-! Helper lemmas shared by the claim theorems. -/

theorem read_write_self (m : Mem) (r v : Nat) :
    read (write m r v) r = v % WORD := by
  simp [read, write]

theorem read_modify_self (m : Mem) (r s c : Nat) :
    read (modify m r s c) r = ((read m r &&& (MASK ^^^ c)) ||| s) % WORD := by
  simp [modify, read_write_self]

/-- C2: for every register and every value at most `0xFFFFFFFF`, a
`write` followed by a `read` of the same register returns exactly the
written value. -/
theorem write_read_roundtrip (m : Mem) (r v : Nat) (h : v ≤ 0xFFFFFFFF) :
    read (write m r v) r = v := by
  rw [read_write_self]
  exact Nat.mod_eq_of_lt (Nat.lt_of_le_of_lt h (by norm_num [WORD]))

/-- Witness for C2 at a concrete register and value. -/
theorem write_read_roundtrip_witness :
    (0xDEADBEEF : Nat) ≤ 0xFFFFFFFF
    ∧ read (write zeroMem RCC_APB1ENR 0xDEADBEEF) RCC_APB1ENR = 0xDEADBEEF :=
  ⟨by decide, write_read_roundtrip zeroMem RCC_APB1ENR 0xDEADBEEF (by decide)⟩

/-- C3: from a register holding `0x00000000`, `modify` with set-mask
`1 <<< 10` yields `0x00000400`, and a subsequent `modify` with clear-mask
`1 <<< 10` yields `0x00000000`; likewise the actual set-then-clear
statement sequence of `bare_metal_driver.main` leaves the mode register
zero. -/
theorem modify_set_then_clear_bit10 :
    read (modify zeroMem GPIO_A_MODE_R (1 <<< 10) 0) GPIO_A_MODE_R = 0x00000400
    ∧ read (modify (modify zeroMem GPIO_A_MODE_R (1 <<< 10) 0) GPIO_A_MODE_R 0 (1 <<< 10))
        GPIO_A_MODE_R = 0x00000000
    ∧ read (initSeq zeroMem) GPIO_A_MODE_R = 0x00000000 := by
  refine ⟨?_, ?_, ?_⟩ <;> decide

/-- C5: every run of `bare_metal_driver.main`'s control loop raises
`NameError` on the undefined name `pseuo_delay` during its first
iteration (after completing the XOR toggle of the output-data register),
for every positive fuel bound — the loop never completes a single
iteration, let alone runs forever. -/
theorem bareMetal_loop_raises (m : Mem) (fuel : Nat) :
    (bareMetalRunLoop (fuel + 1) m).2 = some PyName.pseuo_delay
    ∧ (bareMetalRunLoop (fuel + 1) m).1 GPIO_A_OD_R
      = (read m GPIO_A_OD_R ^^^ LED_PIN) % WORD := by
  constructor <;> rfl

/-- C6: the three-statement initialization sequence of
`bare_metal_driver.main` reverts its own configuration: the second
statement sets mode bit 10 (mode register `0x400`, the Configured
state), and the third clears it back to `0x0`, the value the mode
register held in the initial Unclocked state — so the state order is not
preserved and the configuration is undone before the loop starts. -/
theorem initSeq_mode_register_cleared (m : Mem) :
    read (write (write m RCC_APB1ENR GPIOAEN) GPIO_A_MODE_R (1 <<< 10)) GPIO_A_MODE_R
      = 0x00000400
    ∧ read (initSeq m) GPIO_A_MODE_R = read zeroMem GPIO_A_MODE_R := by
  constructor
  · rw [read_write_self]
    decide
  · have hz : read zeroMem GPIO_A_MODE_R = 0 := rfl
    rw [hz]
    simp only [initSeq, read_write_self]
    decide

/-- C10: `output_driver.main` raises `NameError` on `green_led_name`
while evaluating its startup prints, before the blink loop is entered,
and its list of performed LED writes is empty — for every loop-fuel
bound, the LED's value is never written. -/
theorem outputDriver_name_error (fuel : Nat) :
    outputDriverMain fuel = ([], some PyName.green_led_name) := by
  rfl

/-- C1: after `modify(R, S, C)` on a register holding a 32-bit value,
the register holds exactly `(v & ~C) | S`; bitwise, every bit of `S` is
set, every bit of `C` not in `S` is clear, and every bit in neither mask
keeps its pre-call value. -/
theorem modify_bits (m : Mem) (r s c i : Nat)
    (hv : read m r < WORD) (hs : s < WORD) (hi : i < 32) :
    read (modify m r s c) r = (read m r &&& (MASK ^^^ c)) ||| s
    ∧ (Nat.testBit s i = true → Nat.testBit (read (modify m r s c) r) i = true)
    ∧ (Nat.testBit c i = true → Nat.testBit s i = false →
        Nat.testBit (read (modify m r s c) r) i = false)
    ∧ (Nat.testBit s i = false → Nat.testBit c i = false →
        Nat.testBit (read (modify m r s c) r) i = Nat.testBit (read m r) i) := by
  have hword : WORD = 2 ^ 32 := rfl
  have h1 : read m r &&& (MASK ^^^ c) < 2 ^ 32 :=
    Nat.lt_of_le_of_lt Nat.and_le_left (hword ▸ hv)
  have hlt : (read m r &&& (MASK ^^^ c)) ||| s < 2 ^ 32 :=
    Nat.or_lt_two_pow h1 (hword ▸ hs)
  have heq : read (modify m r s c) r = (read m r &&& (MASK ^^^ c)) ||| s := by
    rw [read_modify_self, hword]
    exact Nat.mod_eq_of_lt hlt
  have hmask : Nat.testBit (MASK ^^^ c) i = !Nat.testBit c i := by
    rw [Nat.testBit_xor]
    have hm : Nat.testBit MASK i = true := by
      have hm1 : MASK = 2 ^ 32 - 1 := rfl
      rw [hm1, Nat.testBit_two_pow_sub_one]
      exact decide_eq_true hi
    rw [hm]
    simp
  have hbit : Nat.testBit (read (modify m r s c) r) i
      = ((Nat.testBit (read m r) i && Nat.testBit (MASK ^^^ c) i) || Nat.testBit s i) := by
    rw [heq, Nat.testBit_or, Nat.testBit_and]
  refine ⟨heq, ?_, ?_, ?_⟩
  · intro hS
    rw [hbit, hS, Bool.or_true]
  · intro hC hS
    rw [hbit, hS, hmask, hC]
    simp
  · intro hS hC
    rw [hbit, hS, hmask, hC]
    simp

/-- Witness for C1 at a concrete memory, register, masks and bit
position. -/
theorem modify_bits_witness :
    read sampleMem GPIO_A_OD_R < WORD ∧ (0x0000FF00 : Nat) < WORD ∧ (9 : Nat) < 32
    ∧ (read (modify sampleMem GPIO_A_OD_R 0x0000FF00 0x000000FF) GPIO_A_OD_R
        = (read sampleMem GPIO_A_OD_R &&& (MASK ^^^ 0x000000FF)) ||| 0x0000FF00
      ∧ (Nat.testBit 0x0000FF00 9 = true →
          Nat.testBit (read (modify sampleMem GPIO_A_OD_R 0x0000FF00 0x000000FF) GPIO_A_OD_R) 9
            = true)
      ∧ (Nat.testBit 0x000000FF 9 = true → Nat.testBit 0x0000FF00 9 = false →
          Nat.testBit (read (modify sampleMem GPIO_A_OD_R 0x0000FF00 0x000000FF) GPIO_A_OD_R) 9
            = false)
      ∧ (Nat.testBit 0x0000FF00 9 = false → Nat.testBit 0x000000FF 9 = false →
          Nat.testBit (read (modify sampleMem GPIO_A_OD_R 0x0000FF00 0x000000FF) GPIO_A_OD_R) 9
            = Nat.testBit (read sampleMem GPIO_A_OD_R) 9)) :=
  ⟨by decide, by decide, by decide,
    modify_bits sampleMem GPIO_A_OD_R 0x0000FF00 0x000000FF 9 (by decide) (by decide) (by decide)⟩

/-- C7: `modify` is idempotent — calling it twice with the same register
and masks leaves the register with the same value as calling it once. -/
theorem modify_idempotent (m : Mem) (r s c : Nat) :
    read (modify (modify m r s c) r s c) r = read (modify m r s c) r := by
  rw [read_modify_self (modify m r s c) r s c, read_modify_self m r s c]
  apply Nat.eq_of_testBit_eq
  intro j
  have hword : WORD = 2 ^ 32 := rfl
  rw [hword]
  simp only [Nat.testBit_mod_two_pow, Nat.testBit_or, Nat.testBit_and]
  by_cases hj : j < 32
  · simp only [hj, decide_True, Bool.true_and]
    cases hA : Nat.testBit (read m r) j <;> cases hB : Nat.testBit (MASK ^^^ c) j
      <;> cases hC : Nat.testBit s j <;> simp [hA, hB, hC]
  · simp [hj]

/-- Helper for C4: a single `modify` whose set-mask and clear-mask are
the same mask `M` leaves every bit of `M` set (the set-mask is applied
after the clear). -/
theorem modify_same_mask_bit (m : Mem) (r M k : Nat) (hk : k < 32)
    (hM : Nat.testBit M k = true) :
    Nat.testBit (read (modify m r M M) r) k = true := by
  rw [read_modify_self]
  have hword : WORD = 2 ^ 32 := rfl
  rw [hword, Nat.testBit_mod_two_pow, Nat.testBit_or, hM]
  simp [hk]

/-- Helper for C4: the register value after `n` XOR toggles (line 27 of
`bare_metal_driver.py`) starting from a zero register: `M` when `n` is
odd, `0` when `n` is even. -/
theorem toggle_iter_value (r M : Nat) (hM : M < WORD) (n : Nat) :
    read (iterApply (xorToggleStep r M) n zeroMem) r = if n % 2 = 1 then M else 0 := by
  induction n with
  | zero => rfl
  | succ n ih =>
    have hstep : read (iterApply (xorToggleStep r M) (n + 1) zeroMem) r
        = (read (iterApply (xorToggleStep r M) n zeroMem) r ^^^ M) % WORD := by
      simp only [iterApply, xorToggleStep, read_write_self]
    rw [hstep, ih]
    rcases Nat.mod_two_eq_zero_or_one n with h | h
    · have h2 : (n + 1) % 2 = 1 := by omega
      rw [h2]
      simp [h, Nat.mod_eq_of_lt hM]
    · have h2 : (n + 1) % 2 = 0 := by omega
      rw [h2]
      simp [h]

/-- C4 (amended): from a zero register, repeated `modify(R, M, M)` with
a single-bit mask `M = 1 <<< k` does not toggle the bit — the bit is 1
after every positive number of calls, because the set-mask is applied
after the clear-mask; the alternation "bit state equals N mod 2" is
instead produced by the XOR toggle `write(R, read(R) ^ M)` that
`bare_metal_driver`'s loop actually performs. -/
theorem modify_same_mask_vs_xor_toggle (r k n : Nat) (hk : k < 32) :
    Nat.testBit
      (read (iterApply (fun m => modify m r (1 <<< k) (1 <<< k)) (n + 1) zeroMem) r) k = true
    ∧ Nat.testBit (read (iterApply (xorToggleStep r (1 <<< k)) n zeroMem) r) k
      = decide (n % 2 = 1) := by
  have htb : Nat.testBit (1 <<< k) k = true := by
    rw [Nat.shiftLeft_eq, one_mul]
    exact Nat.testBit_two_pow_self
  have hlt : 1 <<< k < WORD := by
    rw [Nat.shiftLeft_eq, one_mul]
    have h2 : (2 : Nat) ^ k < 2 ^ 32 := Nat.pow_lt_pow_right (by omega) hk
    simpa [WORD] using h2
  constructor
  · show Nat.testBit
      (read (modify (iterApply (fun m => modify m r (1 <<< k) (1 <<< k)) n zeroMem)
        r (1 <<< k) (1 <<< k)) r) k = true
    exact modify_same_mask_bit _ r (1 <<< k) k hk htb
  · rw [toggle_iter_value r (1 <<< k) hlt n]
    rcases Nat.mod_two_eq_zero_or_one n with h | h
    · simp [h]
    · simp [h, htb]

/-- Witness for C4's amended theorem at bit 5 and one call / one
toggle. -/
theorem modify_same_mask_vs_xor_toggle_witness :
    (5 : Nat) < 32
    ∧ (Nat.testBit
        (read (iterApply (fun m => modify m GPIO_A_OD_R (1 <<< 5) (1 <<< 5)) (1 + 1) zeroMem)
          GPIO_A_OD_R) 5 = true
      ∧ Nat.testBit (read (iterApply (xorToggleStep GPIO_A_OD_R (1 <<< 5)) 1 zeroMem)
          GPIO_A_OD_R) 5 = decide (1 % 2 = 1)) :=
  ⟨by decide, modify_same_mask_vs_xor_toggle GPIO_A_OD_R 5 1 (by decide)⟩

/-- C4 counterexample: after two calls of `modify(R, M, M)` with
`M = 1 <<< 5` starting from a zero register, bit 5 is 1, although the
claim predicts state `2 mod 2 = 0`. -/
theorem modify_same_mask_counterexample :
    Nat.testBit
      (read (iterApply (fun m => modify m GPIO_A_OD_R (1 <<< 5) (1 <<< 5)) 2 zeroMem)
        GPIO_A_OD_R) 5 = true
    ∧ (2 : Nat) % 2 = 0 := by
  constructor <;> decide

/-- C8: a `write` of a value wider than 32 bits is truncated
deterministically to its low 32 bits — the modelled layer's documented
policy: the register reads back `v % 2 ^ 32`, which lies below `2 ^ 32`,
and the resulting memory coincides pointwise with that of writing
`v % 2 ^ 32`; no wide write leaves the register state undefined. -/
theorem write_wide_truncates (m : Mem) (r v a : Nat) (h : WORD ≤ v) :
    read (write m r v) r = v % WORD
    ∧ read (write m r v) r < WORD
    ∧ write m r v a = write m r (v % WORD) a := by
  refine ⟨read_write_self m r v, ?_, ?_⟩
  · rw [read_write_self]
    exact Nat.mod_lt _ (by decide)
  · show (if a = r then v % WORD else m a) = (if a = r then v % WORD % WORD else m a)
    rw [Nat.mod_mod_of_dvd v dvd_rfl]

/-- Witness for C8 at a concrete 33-bit value. -/
theorem write_wide_truncates_witness :
    WORD ≤ 0x100000005
    ∧ (read (write zeroMem GPIO_A_OD_R 0x100000005) GPIO_A_OD_R = 0x100000005 % WORD
      ∧ read (write zeroMem GPIO_A_OD_R 0x100000005) GPIO_A_OD_R < WORD
      ∧ write zeroMem GPIO_A_OD_R 0x100000005 GPIO_A_OD_R
        = write zeroMem GPIO_A_OD_R (0x100000005 % WORD) GPIO_A_OD_R) :=
  ⟨by decide, write_wide_truncates zeroMem GPIO_A_OD_R 0x100000005 GPIO_A_OD_R (by decide)⟩

/-- C9: on every iteration of `input_driver.main`'s loop, the LED is
written with the inverse of that iteration's button reading: the written
value is 1 exactly when the reading is 0, and 0 exactly when it is
non-zero. -/
theorem inputDriver_inverts (rs : List Nat) (i b : Nat) (h : rs[i]? = some b) :
    (inputDriverTrace rs)[i]? = some (inputLoopBody b)
    ∧ ((inputDriverTrace rs)[i]? = some 1 ↔ b = 0)
    ∧ ((inputDriverTrace rs)[i]? = some 0 ↔ b ≠ 0) := by
  have h1 : (inputDriverTrace rs)[i]? = some (inputLoopBody b) := by
    rw [inputDriverTrace, List.getElem?_map, h, Option.map_some']
  refine ⟨h1, ?_, ?_⟩
  · rw [h1]
    by_cases hb : b = 0 <;> simp [inputLoopBody, hb]
  · rw [h1]
    by_cases hb : b = 0 <;> simp [inputLoopBody, hb]

/-- Witness for C9 at the reading sequence `[0, 7]`, iteration 1. -/
theorem inputDriver_inverts_witness :
    ([0, 7] : List Nat)[1]? = some 7
    ∧ ((inputDriverTrace [0, 7])[1]? = some (inputLoopBody 7)
      ∧ ((inputDriverTrace [0, 7])[1]? = some 1 ↔ (7 : Nat) = 0)
      ∧ ((inputDriverTrace [0, 7])[1]? = some 0 ↔ (7 : Nat) ≠ 0)) :=
  ⟨by decide, inputDriver_inverts [0, 7] 1 7 (by decide)⟩

end DeviceDrivers
